import Mathlib

/-!
Verification development for the cpn-core repository: a shallow embedding of
the vehicle-class normalization helpers, the canonical violation record model,
the provider-engine failure handling, the csgt.vn captcha retry engine, the
check-phat-nguoi vehicle-class post-filter, and the notification-config
validators, together with theorems settling the specification claims.
-/

/-- Embeds `VehicleTypeEnum` (src/cpn_core/types/vehicle_type.py, an `IntEnum`
with car = 1, motorbike = 2, electric_motorbike = 3). -/
inductive VehicleTypeEnum where
  | car
  | motorbike
  | electric_motorbike
deriving DecidableEq

/-- The numeric value of the `IntEnum` member. -/
def VehicleTypeEnum.value : VehicleTypeEnum → Nat
  | .car => 1
  | .motorbike => 2
  | .electric_motorbike => 3

/-- A Python value that may be passed to `get_vehicle_enum` and friends (the
source annotates the argument `VehicleTypeEnum | VehicleType | Any`): an
already-canonical enum member, an integer, or a string. -/
inductive PyVehicleInput where
  | enumV (v : VehicleTypeEnum)
  | intV (n : Int)
  | strV (s : String)
deriving DecidableEq

/-- The or-pattern of the `car` case of the `match` in `get_vehicle_enum`
(src/cpn_core/types/vehicle_type.py lines 24-25): `VehicleTypeEnum.car | "car"
| "Ô tô" | 1 | "1"`. -/
def carPatterns : List PyVehicleInput :=
  [.enumV .car, .strV "car", .strV "Ô tô", .intV 1, .strV "1"]

/-- The or-pattern of the `motorbike` case (lines 26-27). -/
def motorbikePatterns : List PyVehicleInput :=
  [.enumV .motorbike, .strV "motorbike", .strV "Xe máy", .intV 2, .strV "2"]

/-- The or-pattern of the `electric_motorbike` case (lines 28-35). -/
def electricPatterns : List PyVehicleInput :=
  [.enumV .electric_motorbike, .strV "electric_motorbike", .strV "Xe máy điện",
   .intV 3, .strV "3"]

/-- Every input recognized by the three or-patterns. -/
def recognizedVehicleInputs : List PyVehicleInput :=
  carPatterns ++ motorbikePatterns ++ electricPatterns

instance exceptDecEq {ε α : Type} [DecidableEq ε] [DecidableEq α] :
    DecidableEq (Except ε α) := fun x y =>
  match x, y with
  | .error a, .error b => decidable_of_iff (a = b) (by simp)
  | .error _, .ok _ => isFalse (fun hc => Except.noConfusion hc)
  | .ok _, .error _ => isFalse (fun hc => Except.noConfusion hc)
  | .ok a, .ok b => decidable_of_iff (a = b) (by simp)

/-- Embeds `get_vehicle_enum` (src/cpn_core/types/vehicle_type.py lines
20-37): an `isinstance(type, VehicleTypeEnum)` shortcut returning the value
unchanged, then a `match` over the three or-patterns, and `raise
ValueError("Unknown vehicle type")` on anything else.  `Except` models the
raised `ValueError`. -/
def get_vehicle_enum (t : PyVehicleInput) : Except String VehicleTypeEnum :=
  match t with
  | .enumV v => .ok v
  | t =>
    if t ∈ carPatterns then .ok .car
    else if t ∈ motorbikePatterns then .ok .motorbike
    else if t ∈ electricPatterns then .ok .electric_motorbike
    else .error "Unknown vehicle type"

/-- Embeds `get_vehicle_str` (src/cpn_core/types/vehicle_type.py lines 40-55):
the same `match` over the three or-patterns (no isinstance shortcut), mapping
to the English tags. -/
def get_vehicle_str (t : PyVehicleInput) : Except String String :=
  if t ∈ carPatterns then .ok "car"
  else if t ∈ motorbikePatterns then .ok "motorbike"
  else if t ∈ electricPatterns then .ok "electric_motorbike"
  else .error "Unknown vehicle type"

/-- A parsed timestamp as produced by `datetime.strptime` with the fixed
format `"%H:%M, %d/%m/%Y"` used in every parse engine. -/
structure PyDateTime where
  year : Nat
  month : Nat
  day : Nat
  hour : Nat
  minute : Nat
deriving DecidableEq

/-- Take at most `k` leading decimal digits. -/
def takeDigits : Nat → List Char → List Char × List Char
  | 0, cs => ([], cs)
  | _ + 1, [] => ([], [])
  | k + 1, c :: cs =>
    if c.isDigit then
      let (ds, rest) := takeDigits k cs
      (c :: ds, rest)
    else ([], c :: cs)

/-- Numeric value of a digit list. -/
def digitsToNat (ds : List Char) : Nat :=
  ds.foldl (fun acc c => acc * 10 + (c.toNat - '0'.toNat)) 0

/-- Parse one to `maxDigits` digits, as the strptime numeric directives do. -/
def parseNum (maxDigits : Nat) (cs : List Char) : Option (Nat × List Char) :=
  let (ds, rest) := takeDigits maxDigits cs
  if ds.isEmpty then none else some (digitsToNat ds, rest)

/-- Consume one expected literal character. -/
def expectChar (c : Char) : List Char → Option (List Char)
  | [] => none
  | x :: xs => if x = c then some xs else none

/-- Day count of a month, with the Gregorian leap rule, as validated by the
`datetime` constructor. -/
def daysInMonth (year month : Nat) : Nat :=
  if month = 2 then
    if year % 4 = 0 ∧ (year % 100 ≠ 0 ∨ year % 400 = 0) then 29 else 28
  else if month = 4 ∨ month = 6 ∨ month = 9 ∨ month = 11 then 30
  else 31

/-- Embeds `datetime.strptime(s, "%H:%M, %d/%m/%Y")` (the
`RESPONSE_DATETIME_FORMAT` shared by the parse engines): each numeric
directive takes one or two digits (four for the year), literal separators
must match exactly, and the constructed datetime is range-checked; a failure
models the raised `ValueError`. -/
def strptimeHMdmY (s : String) : Option PyDateTime := do
  let cs := s.data
  let (h, cs) ← parseNum 2 cs
  let cs ← expectChar ':' cs
  let (mi, cs) ← parseNum 2 cs
  let cs ← expectChar ',' cs
  let cs ← expectChar ' ' cs
  let (d, cs) ← parseNum 2 cs
  let cs ← expectChar '/' cs
  let (mo, cs) ← parseNum 2 cs
  let cs ← expectChar '/' cs
  let (y, cs) ← parseNum 4 cs
  if cs.isEmpty ∧ h ≤ 23 ∧ mi ≤ 59 ∧ 1 ≤ mo ∧ mo ≤ 12 ∧ 1 ≤ d ∧
      d ≤ daysInMonth y mo ∧ 1 ≤ y then
    some { year := y, month := mo, day := d, hour := h, minute := mi }
  else none

/-- Modelled from the spec: the `ViolationRecord` value type of section 3
(the repository file `cpn_core/models/violation_detail.py` that defines
`ViolationDetail` is not included under src/, only its constructor calls in
the parse engines are).  Fields follow the keyword arguments used at every
`ViolationDetail(...)` construction site; equality and deduplication are by
full field-value equality, per the spec invariant. -/
structure ViolationDetail where
  plate : String
  color : String
  type : VehicleTypeEnum
  date : PyDateTime
  location : String
  violation : Option String
  status : Bool
  enforcement_unit : String
  resolution_offices : List String
deriving DecidableEq

/-- Accumulation of parsed records into the mutable Python `set` field
`_violation_details_set` (csgt `_parse_violations` lines 220-233,
phat_nguoi `parse` lines 144-160): each record is added in order into a set
with value-equality semantics. -/
def parse_violations_set (records : List ViolationDetail) : Finset ViolationDetail :=
  records.foldl (fun s v => insert v s) ∅

lemma mem_foldl_insert {α : Type} [DecidableEq α] (l : List α) (s : Finset α) (x : α) :
    x ∈ l.foldl (fun s v => insert v s) s ↔ x ∈ s ∨ x ∈ l := by
  induction l generalizing s with
  | nil => simp
  | cons a t ih =>
    simp only [List.foldl_cons, ih, Finset.mem_insert, List.mem_cons]
    tauto

lemma mem_parse_violations_set (l : List ViolationDetail) (x : ViolationDetail) :
    x ∈ parse_violations_set l ↔ x ∈ l := by
  simp [parse_violations_set, mem_foldl_insert]

/-- A character stripped by Python `str.strip()` with no argument (the ASCII
whitespace fragment). -/
def isPySpace (c : Char) : Bool :=
  c = ' ' || c = '\t' || c = '\n' || c = '\r' || c = '\x0b' || c = '\x0c'

/-- Models Python `str.strip()`: remove leading and trailing whitespace. -/
def pyStrip (s : String) : String :=
  String.mk (((s.data.dropWhile isPySpace).reverse.dropWhile isPySpace).reverse)

/-- One scripted interaction of the csgt engine with the provider: the
`PHPSESSID` cookie carried by the captcha response (`none` models a response
without the cookie), the captcha image bytes, the body answered by the
submission endpoint (`_get_html_check`), and the body answered by the data
endpoint (`_get_plate_data`). -/
structure CsgtAttempt where
  phpsessid : Option String
  captchaImg : List Nat
  htmlCheck : String
  plateData : String
deriving DecidableEq

/-- Observable network/OCR steps taken by one run of
`_CsgtCoreEngine.get_data`, tagged with the zero-based attempt number. -/
inductive CsgtEvent where
  | getSession (i : Nat) (sid : Option String)
  | solveCaptcha (i : Nat) (answer : String)
  | submitCheck (i : Nat) (body : String)
  | fetchData (i : Nat) (body : String)
deriving DecidableEq

/-- The terminal result of `_CsgtCoreEngine.get_data`
(src/cpn_core/get_data/csgt.py lines 253-300): `fatal` is the bare `return`
on a missing `PHPSESSID` (the function yields `None`), `success` carries the
value of `self._parse_html(plate_data)` of the accepted attempt, and
`exhausted` is the `except RetryError` path (the function logs and yields
`None`). -/
inductive CsgtOutcome where
  | fatal
  | success (records : Option (List ViolationDetail))
  | exhausted
deriving DecidableEq

/-- One body execution of the `AsyncRetrying` loop in
`_CsgtCoreEngine.get_data` (csgt.py lines 263-292), over the scripted
attempt `a`: acquire session and captcha (`_get_phpsessid_and_captcha`);
missing cookie returns immediately (`fatal`); otherwise OCR-solve
(`_bypass_captcha` trims the OCR output), submit (`_get_html_check`), and
either raise `ResolveCaptchaFail` when the stripped body equals `"404"`
(result `none`, meaning the attempt is retried) or fetch the plate data and
return the parse result.  Also returns the event trace of the attempt. -/
def csgtAttemptRun (ocr : List Nat → String)
    (parse : String → Option (List ViolationDetail))
    (i : Nat) (a : CsgtAttempt) : Option CsgtOutcome × List CsgtEvent :=
  match a.phpsessid with
  | none => (some .fatal, [.getSession i none])
  | some sid =>
    let captcha := pyStrip (ocr a.captchaImg)
    if pyStrip a.htmlCheck = "404" then
      (none, [.getSession i (some sid), .solveCaptcha i captcha,
              .submitCheck i a.htmlCheck])
    else
      (some (.success (parse a.plateData)),
       [.getSession i (some sid), .solveCaptcha i captcha,
        .submitCheck i a.htmlCheck, .fetchData i a.plateData])

/-- The `AsyncRetrying(stop=stop_after_attempt(self._retry_captcha),
retry=retry_if_exception_type(ResolveCaptchaFail))` loop: attempt `i` runs
with `fuel` attempts remaining; a `ResolveCaptchaFail` with no fuel left
becomes `RetryError`, caught by the `except` clause (outcome `exhausted`). -/
def csgtRetryLoop (ocr : List Nat → String)
    (parse : String → Option (List ViolationDetail))
    (script : Nat → CsgtAttempt) : Nat → Nat → CsgtOutcome × List CsgtEvent
  | _, 0 => (.exhausted, [])
  | i, fuel + 1 =>
    match csgtAttemptRun ocr parse i (script i) with
    | (some out, evs) => (out, evs)
    | (none, evs) =>
      let r := csgtRetryLoop ocr parse script (i + 1) fuel
      (r.1, evs ++ r.2)

/-- Embeds `_CsgtCoreEngine.get_data` (csgt.py lines 253-300) for a given
`retry_captcha` bound, scripted provider behavior, OCR primitive and HTML
parse collaborator. -/
def csgt_get_data (ocr : List Nat → String)
    (parse : String → Option (List ViolationDetail))
    (retry_captcha : Nat) (script : Nat → CsgtAttempt) :
    CsgtOutcome × List CsgtEvent :=
  csgtRetryLoop ocr parse script 0 retry_captcha

/-- The data-fetch calls (`_get_plate_data`) recorded in an event trace,
with their attempt number and response body. -/
def fetchEvents : List CsgtEvent → List (Nat × String)
  | [] => []
  | .fetchData i d :: rest => (i, d) :: fetchEvents rest
  | _ :: rest => fetchEvents rest

lemma fetchEvents_append (a b : List CsgtEvent) :
    fetchEvents (a ++ b) = fetchEvents a ++ fetchEvents b := by
  induction a with
  | nil => rfl
  | cons e rest ih => cases e <;> simp [fetchEvents, ih]

lemma csgtRetryLoop_success (ocr : List Nat → String)
    (parse : String → Option (List ViolationDetail))
    (script : Nat → CsgtAttempt) :
    ∀ f i : Nat,
      (∀ j, j < f → ((script (i + j)).phpsessid).isSome ∧
        pyStrip (script (i + j)).htmlCheck = "404") →
      ((script (i + f)).phpsessid).isSome →
      pyStrip (script (i + f)).htmlCheck ≠ "404" →
      (csgtRetryLoop ocr parse script i (f + 1)).1 =
          .success (parse (script (i + f)).plateData) ∧
      fetchEvents (csgtRetryLoop ocr parse script i (f + 1)).2 =
          [(i + f, (script (i + f)).plateData)] := by
  intro f
  induction f with
  | zero =>
    intro i _ hsid hacc
    obtain ⟨sid, hs⟩ := Option.isSome_iff_exists.mp (by simpa using hsid)
    simp only [Nat.add_zero] at hacc hs
    simp [csgtRetryLoop, csgtAttemptRun, hs, hacc, fetchEvents]
  | succ g ih =>
    intro i hrej hsid hacc
    have h0 := hrej 0 (Nat.succ_pos g)
    simp only [Nat.add_zero] at h0
    obtain ⟨sid, hs⟩ := Option.isSome_iff_exists.mp h0.1
    have hrec := ih (i + 1)
      (fun j hj => by
        have := hrej (j + 1) (Nat.succ_lt_succ hj)
        simpa [Nat.add_assoc, Nat.add_comm 1 j] using this)
      (by simpa [Nat.add_assoc, Nat.add_comm 1 g] using hsid)
      (by simpa [Nat.add_assoc, Nat.add_comm 1 g] using hacc)
    have hidx : i + 1 + g = i + (g + 1) := by omega
    rw [hidx] at hrec
    simp only [csgtRetryLoop, csgtAttemptRun, hs, h0.2, if_pos]
    simpa [fetchEvents_append, fetchEvents] using hrec

lemma csgtRetryLoop_exhausted (ocr : List Nat → String)
    (parse : String → Option (List ViolationDetail))
    (script : Nat → CsgtAttempt) :
    ∀ fuel i : Nat,
      (∀ j, j < fuel → ((script (i + j)).phpsessid).isSome ∧
        pyStrip (script (i + j)).htmlCheck = "404") →
      (csgtRetryLoop ocr parse script i fuel).1 = .exhausted ∧
      fetchEvents (csgtRetryLoop ocr parse script i fuel).2 = [] := by
  intro fuel
  induction fuel with
  | zero => intro i _; simp [csgtRetryLoop, fetchEvents]
  | succ g ih =>
    intro i hrej
    have h0 := hrej 0 (Nat.succ_pos g)
    simp only [Nat.add_zero] at h0
    obtain ⟨sid, hs⟩ := Option.isSome_iff_exists.mp h0.1
    have hrec := ih (i + 1)
      (fun j hj => by
        have := hrej (j + 1) (Nat.succ_lt_succ hj)
        simpa [Nat.add_assoc, Nat.add_comm 1 j] using this)
    simp only [csgtRetryLoop, csgtAttemptRun, hs, h0.2, if_pos]
    simpa [fetchEvents_append, fetchEvents] using hrec

/-- C1: with `maxCaptchaRetries = N`, if the first `N - 1` submission
attempts are rejected (body `"404"`) and the `N`-th is accepted, `get_data`
terminates with the records parsed from the data fetched in the final
accepted attempt only, and no earlier attempt ever reaches the data-fetch
step. -/
theorem csgt_success_final_attempt_only (ocr : List Nat → String)
    (parse : String → Option (List ViolationDetail))
    (script : Nat → CsgtAttempt) (N : Nat)
    (hN : 1 ≤ N)
    (hrej : ∀ j, j < N - 1 → ((script j).phpsessid).isSome ∧
      pyStrip (script j).htmlCheck = "404")
    (hsid : ((script (N - 1)).phpsessid).isSome)
    (hacc : pyStrip (script (N - 1)).htmlCheck ≠ "404") :
    (csgt_get_data ocr parse N script).1 =
        .success (parse (script (N - 1)).plateData) ∧
    fetchEvents (csgt_get_data ocr parse N script).2 =
        [(N - 1, (script (N - 1)).plateData)] := by
  obtain ⟨f, rfl⟩ : ∃ f, N = f + 1 := ⟨N - 1, by omega⟩
  have hf : f + 1 - 1 = f := by omega
  rw [hf] at hrej hsid hacc ⊢
  have h := csgtRetryLoop_success ocr parse script f 0
    (fun j hj => by simpa using hrej j hj)
    (by simpa using hsid) (by simpa using hacc)
  simpa [csgt_get_data] using h

/-- C2: with `maxCaptchaRetries = N`, if every one of the `N` attempts is
rejected, `get_data` terminates in the exhausted failure state (not a
successful result) and never performs a data-fetch call. -/
theorem csgt_exhausted_no_fetch (ocr : List Nat → String)
    (parse : String → Option (List ViolationDetail))
    (script : Nat → CsgtAttempt) (N : Nat)
    (hrej : ∀ j, j < N → ((script j).phpsessid).isSome ∧
      pyStrip (script j).htmlCheck = "404") :
    (csgt_get_data ocr parse N script).1 = .exhausted ∧
    fetchEvents (csgt_get_data ocr parse N script).2 = [] := by
  have h := csgtRetryLoop_exhausted ocr parse script N 0
    (fun j hj => by simpa using hrej j hj)
  simpa [csgt_get_data] using h

/-- C3: with a session token present, an attempt raises the captcha-retry
signal exactly when the submission response body stripped of surrounding
whitespace equals `"404"`; any other body proceeds to the data fetch and
returns its parse result. -/
theorem csgt_rejection_classification (ocr : List Nat → String)
    (parse : String → Option (List ViolationDetail))
    (i : Nat) (a : CsgtAttempt) (sid : String)
    (hsid : a.phpsessid = some sid) :
    ((csgtAttemptRun ocr parse i a).1 = none ↔
        pyStrip a.htmlCheck = "404") ∧
    (pyStrip a.htmlCheck ≠ "404" →
      (csgtAttemptRun ocr parse i a).1 =
          some (.success (parse a.plateData)) ∧
      (i, a.plateData) ∈ fetchEvents (csgtAttemptRun ocr parse i a).2) := by
  constructor
  · constructor
    · intro h
      by_contra habs
      simp [csgtAttemptRun, hsid, habs] at h
    · intro h
      simp [csgtAttemptRun, hsid, h]
  · intro h
    simp [csgtAttemptRun, hsid, h, fetchEvents]

/-- C4: when the session-acquisition response carries no `PHPSESSID` cookie,
`get_data` returns immediately with the fatal outcome: the complete event
trace is the single session acquisition of attempt 0 (no captcha solve, no
submission, no data fetch, no retry), for every positive retry bound. -/
theorem csgt_missing_token_fatal (ocr : List Nat → String)
    (parse : String → Option (List ViolationDetail))
    (script : Nat → CsgtAttempt) (N : Nat)
    (hN : 1 ≤ N) (h0 : (script 0).phpsessid = none) :
    csgt_get_data ocr parse N script = (.fatal, [.getSession 0 none]) := by
  obtain ⟨f, rfl⟩ : ∃ f, N = f + 1 := ⟨N - 1, by omega⟩
  simp [csgt_get_data, csgtRetryLoop, csgtAttemptRun, h0]

/-- A fixed OCR collaborator for concrete runs. -/
def ocr0 : List Nat → String := fun _ => " AbC3 "

/-- A fixed parse collaborator for concrete runs. -/
def parse0 : String → Option (List ViolationDetail) := fun _ => some []

/-- A scripted provider that rejects attempt 0 and accepts attempt 1. -/
def scriptAcceptSecond : Nat → CsgtAttempt := fun i =>
  if i = 0 then
    { phpsessid := some "sess0", captchaImg := [0, 1],
      htmlCheck := " 404 ", plateData := "page0" }
  else
    { phpsessid := some "sess1", captchaImg := [2],
      htmlCheck := "<div>records</div>", plateData := "page1" }

/-- A scripted provider that rejects every attempt. -/
def scriptAllReject : Nat → CsgtAttempt := fun _ =>
  { phpsessid := some "sess", captchaImg := [7],
    htmlCheck := "404", plateData := "page" }

/-- A scripted provider whose captcha response has no `PHPSESSID` cookie. -/
def scriptNoCookie : Nat → CsgtAttempt := fun _ =>
  { phpsessid := none, captchaImg := [],
    htmlCheck := "404", plateData := "page" }

theorem csgt_success_final_attempt_only_witness :
    (1 ≤ 2 ∧
     (∀ j, j < 2 - 1 → ((scriptAcceptSecond j).phpsessid).isSome ∧
        pyStrip (scriptAcceptSecond j).htmlCheck = "404") ∧
     ((scriptAcceptSecond (2 - 1)).phpsessid).isSome ∧
     pyStrip (scriptAcceptSecond (2 - 1)).htmlCheck ≠ "404") ∧
    ((csgt_get_data ocr0 parse0 2 scriptAcceptSecond).1 =
        .success (parse0 (scriptAcceptSecond (2 - 1)).plateData) ∧
     fetchEvents (csgt_get_data ocr0 parse0 2 scriptAcceptSecond).2 =
        [(2 - 1, (scriptAcceptSecond (2 - 1)).plateData)]) :=
  ⟨⟨by decide, by decide, by decide, by decide⟩,
   csgt_success_final_attempt_only ocr0 parse0 scriptAcceptSecond 2
     (by decide) (by decide) (by decide) (by decide)⟩

theorem csgt_exhausted_no_fetch_witness :
    (∀ j, j < 2 → ((scriptAllReject j).phpsessid).isSome ∧
        pyStrip (scriptAllReject j).htmlCheck = "404") ∧
    ((csgt_get_data ocr0 parse0 2 scriptAllReject).1 = .exhausted ∧
     fetchEvents (csgt_get_data ocr0 parse0 2 scriptAllReject).2 = []) :=
  ⟨by decide, csgt_exhausted_no_fetch ocr0 parse0 scriptAllReject 2 (by decide)⟩

theorem csgt_rejection_classification_witness :
    (scriptAcceptSecond 1).phpsessid = some "sess1" ∧
    (((csgtAttemptRun ocr0 parse0 1 (scriptAcceptSecond 1)).1 = none ↔
        pyStrip (scriptAcceptSecond 1).htmlCheck = "404") ∧
     (pyStrip (scriptAcceptSecond 1).htmlCheck ≠ "404" →
       (csgtAttemptRun ocr0 parse0 1 (scriptAcceptSecond 1)).1 =
           some (.success (parse0 (scriptAcceptSecond 1).plateData)) ∧
       (1, (scriptAcceptSecond 1).plateData) ∈
           fetchEvents (csgtAttemptRun ocr0 parse0 1 (scriptAcceptSecond 1)).2)) :=
  ⟨by decide,
   csgt_rejection_classification ocr0 parse0 1 (scriptAcceptSecond 1) "sess1"
     (by decide)⟩

theorem csgt_missing_token_fatal_witness :
    (1 ≤ 3 ∧ (scriptNoCookie 0).phpsessid = none) ∧
    csgt_get_data ocr0 parse0 3 scriptNoCookie = (.fatal, [.getSession 0 none]) :=
  ⟨⟨by decide, by decide⟩,
   csgt_missing_token_fatal ocr0 parse0 scriptNoCookie 3 (by decide) (by decide)⟩

/-- A Python exception that the method `_get_data` of an engine may raise, one
constructor per `except` clause appearing in `BaseGetDataEngine.get_data`
(httpx `TimeoutException`, httpx `StreamError`, `GetTokenError`,
`ServerLimitError`, `ParseResponseError`, any other `Exception`) and in
`EtrafficEngine.get_data` (curl `Timeout`, `CurlError`), plus the
`AttributeError` produced by reading a missing instance attribute. -/
inductive PyError where
  | timeoutException
  | streamError
  | getTokenError
  | serverLimitError
  | parseResponseError
  | curlTimeout
  | curlError
  | attributeError
  | otherException
deriving DecidableEq

/-- Embeds `BaseGetDataEngine.get_data` (src/cpn_core/get_data/base.py lines
35-92): run `_get_data` (its outcome, return value or raised exception, is
the argument); a returned value is passed through, and each `except` clause
logs and falls off the end of the function, yielding `None`.  The handlers
of this method only format already-present attributes (`self._timeout` is
set by `BaseGetDataEngine.__init__`, which every engine using this method
calls), so no handler itself raises. -/
def base_get_data (inner : Except PyError (Option (List ViolationDetail))) :
    Except PyError (Option (List ViolationDetail)) :=
  match inner with
  | .ok v => .ok v
  | .error .timeoutException => .ok none
  | .error .streamError => .ok none
  | .error .getTokenError => .ok none
  | .error .serverLimitError => .ok none
  | .error .parseResponseError => .ok none
  | .error _ => .ok none

/-- The attribute dictionary relevant to `EtrafficEngine.get_data`:
`EtrafficEngine.__init__` (etraffic.py lines 185-190) sets only
`self._request_engine` and never calls `BaseGetDataEngine.__init__`, so the
`_timeout` attribute is absent (`none`). -/
structure EtrafficEngineState where
  timeoutAttr : Option Nat
deriving DecidableEq

/-- The state produced by `EtrafficEngine.__init__`: no `_timeout`. -/
def etrafficInit : EtrafficEngineState := { timeoutAttr := none }

/-- Embeds `EtrafficEngine.get_data` (etraffic.py lines 202-245): a returned
tuple is passed through (wrapped, since the base signature is optional); the
`except Timeout` handler formats its log message with `self._timeout`, which
raises `AttributeError` when the attribute is absent, and that exception
escapes the method; the remaining handlers log and fall through to `None`. -/
def etraffic_get_data (st : EtrafficEngineState)
    (inner : Except PyError (List ViolationDetail)) :
    Except PyError (Option (List ViolationDetail)) :=
  match inner with
  | .ok v => .ok (some v)
  | .error .curlTimeout =>
    match st.timeoutAttr with
    | none => .error .attributeError
    | some _ => .ok none
  | .error .curlError => .ok none
  | .error .serverLimitError => .ok none
  | .error _ => .ok none

/-- The base contract boundary indeed converts every modelled failure into a
non-raising result. -/
lemma base_get_data_never_raises (inner : Except PyError (Option (List ViolationDetail))) :
    ∃ r, base_get_data inner = .ok r := by
  rcases inner with e | v
  · cases e <;> exact ⟨none, rfl⟩
  · exact ⟨v, rfl⟩

/-- C5 (failing run): for the etraffic engine as constructed by its
`__init__`, a curl `Timeout` raised during the lookup is not converted to
the failure signal — the `except Timeout` handler evaluates the missing
`self._timeout` attribute and the resulting `AttributeError` propagates out
of `get_data`, contradicting the never-raise contract. -/
theorem etraffic_get_data_timeout_raises :
    etraffic_get_data etrafficInit (.error .curlTimeout) = .error .attributeError :=
  rfl

lemma get_vehicle_enum_unrecognized (t : PyVehicleInput)
    (h : t ∉ recognizedVehicleInputs) :
    get_vehicle_enum t = .error "Unknown vehicle type" := by
  have h1 : t ∉ carPatterns := fun hc =>
    h (by simp [recognizedVehicleInputs, hc])
  have h2 : t ∉ motorbikePatterns := fun hc =>
    h (by simp [recognizedVehicleInputs, hc])
  have h3 : t ∉ electricPatterns := fun hc =>
    h (by simp [recognizedVehicleInputs, hc])
  cases t with
  | enumV v =>
    cases v <;>
      simp [recognizedVehicleInputs, carPatterns, motorbikePatterns,
        electricPatterns] at h
  | intV n => simp [get_vehicle_enum, h1, h2, h3]
  | strV s => simp [get_vehicle_enum, h1, h2, h3]

lemma get_vehicle_str_unrecognized (t : PyVehicleInput)
    (h : t ∉ recognizedVehicleInputs) :
    get_vehicle_str t = .error "Unknown vehicle type" := by
  have h1 : t ∉ carPatterns := fun hc =>
    h (by simp [recognizedVehicleInputs, hc])
  have h2 : t ∉ motorbikePatterns := fun hc =>
    h (by simp [recognizedVehicleInputs, hc])
  have h3 : t ∉ electricPatterns := fun hc =>
    h (by simp [recognizedVehicleInputs, hc])
  simp [get_vehicle_str, h1, h2, h3]

/-- C6: every representation of one vehicle class — numeric code 1-3,
English tag, or localized display string — normalizes to the canonical
variant of that class, and every input outside the recognized representations
fails with the `ValueError` classification error. -/
theorem vehicle_enum_normalization :
    (∀ t ∈ ([.intV 1, .strV "car", .strV "Ô tô"] : List PyVehicleInput),
      get_vehicle_enum t = .ok .car) ∧
    (∀ t ∈ ([.intV 2, .strV "motorbike", .strV "Xe máy"] : List PyVehicleInput),
      get_vehicle_enum t = .ok .motorbike) ∧
    (∀ t ∈ ([.intV 3, .strV "electric_motorbike", .strV "Xe máy điện"] :
        List PyVehicleInput),
      get_vehicle_enum t = .ok .electric_motorbike) ∧
    (∀ t, t ∉ recognizedVehicleInputs →
      get_vehicle_enum t = .error "Unknown vehicle type") := by
  refine ⟨by decide, by decide, by decide, ?_⟩
  exact get_vehicle_enum_unrecognized

theorem vehicle_enum_normalization_witness :
    (((.strV "Ô tô" : PyVehicleInput) ∈
        ([.intV 1, .strV "car", .strV "Ô tô"] : List PyVehicleInput)) ∧
     get_vehicle_enum (.strV "Ô tô") = .ok .car) ∧
    (((.strV "bicycle" : PyVehicleInput) ∉ recognizedVehicleInputs) ∧
     get_vehicle_enum (.strV "bicycle") = .error "Unknown vehicle type") :=
  ⟨⟨by decide, vehicle_enum_normalization.1 (.strV "Ô tô") (by decide)⟩,
   ⟨by decide, vehicle_enum_normalization.2.2.2 (.strV "bicycle") (by decide)⟩⟩

/-- C10: normalization is idempotent (renormalizing an already-normalized
enum value is the identity), agrees with the English-tag normalization
(`get_vehicle_str` then `get_vehicle_enum` equals direct normalization),
and its accepted domain includes the decimal digit strings `"1"`, `"2"`,
`"3"` and the canonical enum values themselves. -/
theorem vehicle_enum_idempotent_agrees :
    (∀ t v, get_vehicle_enum t = .ok v → get_vehicle_enum (.enumV v) = .ok v) ∧
    (∀ t s, get_vehicle_str t = .ok s →
      get_vehicle_enum (.strV s) = get_vehicle_enum t) ∧
    (get_vehicle_enum (.strV "1") = .ok .car ∧
     get_vehicle_enum (.strV "2") = .ok .motorbike ∧
     get_vehicle_enum (.strV "3") = .ok .electric_motorbike) ∧
    (∀ v, get_vehicle_enum (.enumV v) = .ok v) := by
  refine ⟨fun t v _ => rfl, ?_, by decide, fun v => rfl⟩
  intro t s h
  by_cases ht : t ∈ recognizedVehicleInputs
  · fin_cases ht <;>
      (simp [get_vehicle_str, carPatterns, motorbikePatterns,
        electricPatterns] at h
       subst h
       decide)
  · rw [get_vehicle_str_unrecognized t ht] at h
    exact absurd h (by simp)

theorem vehicle_enum_idempotent_agrees_witness :
    (get_vehicle_enum (.strV "Xe máy") = .ok .motorbike ∧
     get_vehicle_enum (.enumV .motorbike) = .ok .motorbike) ∧
    (get_vehicle_str (.intV 2) = .ok "motorbike" ∧
     get_vehicle_enum (.strV "motorbike") = get_vehicle_enum (.intV 2)) :=
  ⟨⟨by decide,
    vehicle_enum_idempotent_agrees.1 (.strV "Xe máy") .motorbike (by decide)⟩,
   ⟨by decide,
    vehicle_enum_idempotent_agrees.2.1 (.intV 2) "motorbike" (by decide)⟩⟩

/-- C7: accumulating parsed records into the result set of a provider collapses
records with identical field tuples into a single entry, and the resulting
set of distinct records is independent of the order in which records are
added. -/
theorem violation_dedup_order_independent :
    (∀ (l1 l2 l3 : List ViolationDetail) (x : ViolationDetail),
      parse_violations_set (l1 ++ x :: l2 ++ x :: l3) =
        parse_violations_set (l1 ++ x :: l2 ++ l3)) ∧
    (∀ l l' : List ViolationDetail, l.Perm l' →
      parse_violations_set l = parse_violations_set l') := by
  constructor
  · intro l1 l2 l3 x
    apply Finset.ext
    intro y
    simp only [mem_parse_violations_set, List.mem_append, List.mem_cons]
    tauto
  · intro l l' hperm
    apply Finset.ext
    intro y
    simp only [mem_parse_violations_set]
    exact hperm.mem_iff

/-- A concrete parsed record. -/
def vd0 : ViolationDetail :=
  { plate := "29A99999", color := "Trắng", type := .car,
    date := { year := 2025, month := 1, day := 2, hour := 8, minute := 30 },
    location := "Hà Nội", violation := some "Vượt đèn đỏ", status := false,
    enforcement_unit := "Đội CSGT số 1",
    resolution_offices := ["1. Đội CSGT số 1"] }

/-- A second concrete parsed record, differing from `vd0` in one field. -/
def vd1 : ViolationDetail :=
  { plate := "29A99999", color := "Trắng", type := .car,
    date := { year := 2025, month := 1, day := 2, hour := 8, minute := 30 },
    location := "Hà Nội", violation := some "Vượt đèn đỏ", status := true,
    enforcement_unit := "Đội CSGT số 1",
    resolution_offices := ["1. Đội CSGT số 1"] }

theorem violation_dedup_order_independent_witness :
    ([vd0, vd1].Perm [vd1, vd0]) ∧
    parse_violations_set [vd0, vd1] = parse_violations_set [vd1, vd0] :=
  ⟨List.Perm.swap vd1 vd0 [],
   violation_dedup_order_independent.2 [vd0, vd1] [vd1, vd0]
     (List.Perm.swap vd1 vd0 [])⟩

/-- One entry of the `data` array of the JSON provider, the `_DataResponse`
TypedDict of src/cpn_core/get_data/check_phat_nguoi.py lines 31-44; field
names romanize the Vietnamese keys: `bienKiemSoat` is the plate, `mauBien`
the plate color, `loaiPhuongTien` the vehicle-class display string,
`thoiGianViPham` the violation time, `diaDiemViPham` the location,
`hanhViViPham` the violation description, `trangThai` the status,
`donViPhatHien` the detecting unit, `noiGiaiQuyet` the resolution
offices. -/
structure CpnDataResponse where
  bienKiemSoat : String
  mauBien : String
  loaiPhuongTien : String
  thoiGianViPham : String
  diaDiemViPham : String
  hanhViViPham : String
  trangThai : String
  donViPhatHien : String
  noiGiaiQuyet : List String
deriving DecidableEq

/-- Embeds `_CheckPhatNguoiParseEngine._parse_violation`
(check_phat_nguoi.py lines 84-115) for requested class `vt`: normalize the
vehicle-class string of the record; when it differs from the requested class, log
and return without adding anything (`some none`); otherwise build the
`ViolationDetail` (parsing the timestamp, which may raise) and report it for
insertion.  An `error` models an exception escaping the method. -/
def cpn_parse_violation (vt : VehicleTypeEnum) (d : CpnDataResponse) :
    Except String (Option ViolationDetail) :=
  match get_vehicle_enum (.strV d.loaiPhuongTien) with
  | .error e => .error e
  | .ok parsedType =>
    if parsedType ≠ vt then .ok none
    else
      match strptimeHMdmY d.thoiGianViPham with
      | none => .error "time data does not match format"
      | some dt =>
        .ok (some
          { plate := d.bienKiemSoat, color := d.mauBien, type := parsedType,
            date := dt, location := d.diaDiemViPham,
            violation := some d.hanhViViPham,
            status := d.trangThai == "Đã xử phạt",
            enforcement_unit := d.donViPhatHien,
            resolution_offices := d.noiGiaiQuyet })

/-- The loop of `_CheckPhatNguoiParseEngine.parse` (lines 130-132) over the
`data` array, accumulating into the `_violation_details_set` set `s`. -/
def cpn_parse_go (vt : VehicleTypeEnum) :
    List CpnDataResponse → Finset ViolationDetail →
    Except String (Finset ViolationDetail)
  | [], s => .ok s
  | d :: rest, s =>
    match cpn_parse_violation vt d with
    | .error e => .error e
    | .ok none => cpn_parse_go vt rest s
    | .ok (some v) => cpn_parse_go vt rest (insert v s)

/-- The record-level part of `_CheckPhatNguoiParseEngine.parse` for a found
response: parse every entry of `data` into the (initially empty) result
set. -/
def cpn_parse (vt : VehicleTypeEnum) (datas : List CpnDataResponse) :
    Except String (Finset ViolationDetail) :=
  cpn_parse_go vt datas ∅

lemma cpn_parse_violation_type (vt : VehicleTypeEnum) (d : CpnDataResponse)
    (v : ViolationDetail) (h : cpn_parse_violation vt d = .ok (some v)) :
    v.type = vt := by
  unfold cpn_parse_violation at h
  cases hge : get_vehicle_enum (.strV d.loaiPhuongTien) with
  | error e => rw [hge] at h; exact absurd h (by simp)
  | ok pt =>
    rw [hge] at h
    dsimp only at h
    by_cases hne : pt ≠ vt
    · rw [if_pos hne] at h
      exact absurd h (by simp)
    · rw [if_neg hne] at h
      push_neg at hne
      cases hst : strptimeHMdmY d.thoiGianViPham with
      | none => rw [hst] at h; exact absurd h (by simp)
      | some dt =>
        rw [hst] at h
        dsimp only at h
        have hv := (Option.some.injEq _ _).mp ((Except.ok.injEq _ _).mp h)
        rw [← hv]
        exact hne

lemma cpn_parse_go_type (vt : VehicleTypeEnum) (datas : List CpnDataResponse) :
    ∀ (s out : Finset ViolationDetail),
      (∀ v ∈ s, v.type = vt) → cpn_parse_go vt datas s = .ok out →
      ∀ v ∈ out, v.type = vt := by
  induction datas with
  | nil =>
    intro s out hs h
    simp only [cpn_parse_go] at h
    rw [← (Except.ok.injEq _ _).mp h]
    exact hs
  | cons d rest ih =>
    intro s out hs h
    simp only [cpn_parse_go] at h
    cases hpv : cpn_parse_violation vt d with
    | error e => rw [hpv] at h; exact absurd h (by simp)
    | ok o =>
      rw [hpv] at h
      cases o with
      | none => exact ih s out hs h
      | some v =>
        refine ih (insert v s) out ?_ h
        intro w hw
        rcases Finset.mem_insert.mp hw with hw1 | hw2
        · rw [hw1]; exact cpn_parse_violation_type vt d v hpv
        · exact hs w hw2

lemma cpn_parse_go_drop (vt : VehicleTypeEnum) (d : CpnDataResponse)
    (pt : VehicleTypeEnum)
    (hge : get_vehicle_enum (.strV d.loaiPhuongTien) = .ok pt)
    (hne : pt ≠ vt) :
    ∀ (l1 l2 : List CpnDataResponse) (s : Finset ViolationDetail),
      cpn_parse_go vt (l1 ++ d :: l2) s = cpn_parse_go vt (l1 ++ l2) s := by
  have hdrop : cpn_parse_violation vt d = .ok none := by
    unfold cpn_parse_violation
    rw [hge]
    dsimp only
    rw [if_pos hne]
  intro l1
  induction l1 with
  | nil =>
    intro l2 s
    simp only [List.nil_append, cpn_parse_go, hdrop]
  | cons a rest ih =>
    intro l2 s
    simp only [List.cons_append, cpn_parse_go]
    cases cpn_parse_violation vt a with
    | error e => rfl
    | ok o => cases o with
      | none => exact ih l2 s
      | some v => exact ih l2 (insert v s)

/-- C8: every record in the parsed output of the JSON provider has the
requested vehicle class, and a record whose parsed vehicle class differs
from the requested one is silently dropped from the result (the parse of
the remaining records is unchanged, and no error is produced). -/
theorem cpn_vehicle_filter :
    (∀ (vt : VehicleTypeEnum) (datas : List CpnDataResponse)
        (out : Finset ViolationDetail),
      cpn_parse vt datas = .ok out → ∀ v ∈ out, v.type = vt) ∧
    (∀ (vt : VehicleTypeEnum) (d : CpnDataResponse) (pt : VehicleTypeEnum),
      get_vehicle_enum (.strV d.loaiPhuongTien) = .ok pt → pt ≠ vt →
      ∀ l1 l2 : List CpnDataResponse,
        cpn_parse vt (l1 ++ d :: l2) = cpn_parse vt (l1 ++ l2)) := by
  constructor
  · intro vt datas out h
    exact cpn_parse_go_type vt datas ∅ out (by simp) h
  · intro vt d pt hge hne l1 l2
    exact cpn_parse_go_drop vt d pt hge hne l1 l2 ∅

/-- A JSON record of the requested class (car). -/
def cpnCarData : CpnDataResponse :=
  { bienKiemSoat := "29A99999", mauBien := "Trắng", loaiPhuongTien := "Ô tô",
    thoiGianViPham := "08:30, 02/01/2025", diaDiemViPham := "Hà Nội",
    hanhViViPham := "Vượt đèn đỏ", trangThai := "Chưa xử phạt",
    donViPhatHien := "Đội CSGT số 1",
    noiGiaiQuyet := ["1. Đội CSGT số 1"] }

/-- A JSON record of a different class (motorbike) in a car lookup. -/
def cpnMotoData : CpnDataResponse :=
  { bienKiemSoat := "29A99999", mauBien := "Trắng", loaiPhuongTien := "Xe máy",
    thoiGianViPham := "09:00, 03/01/2025", diaDiemViPham := "Hà Nội",
    hanhViViPham := "Không đội mũ bảo hiểm", trangThai := "Đã xử phạt",
    donViPhatHien := "Đội CSGT số 2",
    noiGiaiQuyet := ["1. Đội CSGT số 2"] }

theorem cpn_vehicle_filter_witness :
    (cpn_parse .car [cpnCarData, cpnMotoData] =
        .ok (insert
          { plate := "29A99999", color := "Trắng", type := .car,
            date := { year := 2025, month := 1, day := 2, hour := 8,
                      minute := 30 },
            location := "Hà Nội", violation := some "Vượt đèn đỏ",
            status := false, enforcement_unit := "Đội CSGT số 1",
            resolution_offices := ["1. Đội CSGT số 1"] } ∅) ∧
     (∀ v ∈ (insert
          { plate := "29A99999", color := "Trắng", type := .car,
            date := { year := 2025, month := 1, day := 2, hour := 8,
                      minute := 30 },
            location := "Hà Nội", violation := some "Vượt đèn đỏ",
            status := false, enforcement_unit := "Đội CSGT số 1",
            resolution_offices := ["1. Đội CSGT số 1"] } ∅ :
          Finset ViolationDetail),
        v.type = VehicleTypeEnum.car)) ∧
    (get_vehicle_enum (.strV cpnMotoData.loaiPhuongTien) = .ok .motorbike ∧
     VehicleTypeEnum.motorbike ≠ VehicleTypeEnum.car ∧
     cpn_parse .car ([cpnCarData] ++ cpnMotoData :: []) =
        cpn_parse .car ([cpnCarData] ++ [])) :=
  ⟨⟨by decide,
    cpn_vehicle_filter.1 .car [cpnCarData, cpnMotoData] _ (by decide)⟩,
   ⟨by decide, by decide,
    cpn_vehicle_filter.2 .car cpnMotoData .motorbike (by decide) (by decide)
      [cpnCarData] []⟩⟩

/-- Models Python `value.lstrip("-")`: remove every leading minus sign. -/
def pyLstripDash (s : String) : String :=
  String.mk (s.data.dropWhile (fun c => c = '-'))

/-- Models Python `str.isnumeric()` on ASCII text: non-empty and every
character a decimal digit (non-ASCII numeric characters are outside the
modelled fragment). -/
def pyIsNumericAscii (s : String) : Bool :=
  !s.data.isEmpty && s.data.all Char.isDigit

/-- Embeds the Telegram `BOT_TOKEN_PATTERN` anchored match, digits then a
colon then a non-empty remainder
(src/cpn_core/models/notifications/telegram.py line 7), for newline-free
inputs. -/
def telegram_validate_bot_token (s : String) : Bool :=
  let ds := s.data.takeWhile Char.isDigit
  match s.data.dropWhile Char.isDigit with
  | ':' :: r => !ds.isEmpty && !r.isEmpty
  | _ => false

/-- Embeds `TelegramConfig.validate_chat_id` (telegram.py lines 40-45):
`value.lstrip("-").isnumeric()`. -/
def telegram_validate_chat_id (s : String) : Bool :=
  pyIsNumericAscii (pyLstripDash s)

/-- The record fields of `TelegramConfig`
(src/cpn_core/models/notifications/telegram.py lines 10-31). -/
structure TelegramConfig where
  bot_token : String
  chat_id : String
  markdown : Bool
deriving DecidableEq

/-- Pydantic construction of `TelegramConfig`: each field validator may
raise `ValueError`; a config value exists only when both accept. -/
def telegram_config_build (bot_token chat_id : String) (markdown : Bool) :
    Except String TelegramConfig :=
  if !telegram_validate_bot_token bot_token then
    .error "Bot token is not valid"
  else if !telegram_validate_chat_id chat_id then
    .error "Chat ID is not valid"
  else
    .ok { bot_token := bot_token, chat_id := chat_id, markdown := markdown }

/-- A character of the Discord token character class `[A-Za-z0-9_\-]`. -/
def discordTokenChar (c : Char) : Bool :=
  c.isAlpha || c.isDigit || c = '_' || c = '-'

/-- Embeds the Discord `BOT_TOKEN_PATTERN` anchored match
(src/cpn_core/models/notifications/discord.py line 8): exactly three
dot-separated non-empty segments over the token character class. -/
def discord_validate_bot_token (s : String) : Bool :=
  match s.splitOn "." with
  | [a, b, c] =>
    [a, b, c].all (fun seg => !seg.isEmpty && seg.data.all discordTokenChar)
  | _ => false

/-- Embeds `DiscordConfig._validate_chat_id` (discord.py lines 43-48):
`CHAT_ID_PATTERN.match(str(value))` with pattern 18 or 19 digits. -/
def discord_validate_chat_id (n : Int) : Bool :=
  let s := toString n
  (s.length = 18 || s.length = 19) && s.data.all Char.isDigit

/-- The `chat_type` literal of `DiscordConfig`. -/
inductive DiscordChatType where
  | user
  | channel
deriving DecidableEq

/-- The record fields of `DiscordConfig` (discord.py lines 12-34). -/
structure DiscordConfig where
  bot_token : String
  chat_id : Int
  chat_type : DiscordChatType
  markdown : Bool
deriving DecidableEq

/-- Pydantic construction of `DiscordConfig`. -/
def discord_config_build (bot_token : String) (chat_id : Int)
    (chat_type : DiscordChatType) (markdown : Bool) :
    Except String DiscordConfig :=
  if !discord_validate_bot_token bot_token then
    .error "Bot token is not valid"
  else if !discord_validate_chat_id chat_id then
    .error "User ID is not valid"
  else
    .ok { bot_token := bot_token, chat_id := chat_id,
          chat_type := chat_type, markdown := markdown }

/-- The HTTP request assembled by `TelegramEngine._send_message`
(src/cpn_core/notifications/telegram.py lines 24-41). -/
structure TelegramSendRequest where
  url : String
  chat_id : String
  text : String
  parse_mode : String
deriving DecidableEq

/-- Embeds the request construction of `TelegramEngine._send_message`: the
URL embeds the raw bot token and the payload the raw chat id; no
credential-format check is performed at send time. -/
def telegram_send_request (cfg : TelegramConfig) (message : String) :
    TelegramSendRequest :=
  { url := "https://api.telegram.org/bot" ++ cfg.bot_token ++ "/sendMessage",
    chat_id := cfg.chat_id, text := message, parse_mode := "Markdown" }

/-- Whether a pydantic construction succeeded. -/
def buildOk {ε α : Type} : Except ε α → Bool
  | .ok _ => true
  | .error _ => false

/-- The claim wording for the Telegram recipient id: a numeric string
optionally carrying a single leading minus sign (stated for refinement
comparison with the implemented validator). -/
def chat_id_claim_pattern (s : String) : Bool :=
  pyIsNumericAscii s ||
    (match s.data with
     | '-' :: rest => pyIsNumericAscii (String.mk rest)
     | _ => false)

/-- C9 (counterexample): `"--123"` is not a numeric string optionally
minus-prefixed, yet constructing a Telegram config with it succeeds, because
`lstrip("-")` removes every leading minus sign; so the claim that
construction fails whenever the chat id is not such a string is false. -/
theorem telegram_chat_id_claim_counterexample :
    chat_id_claim_pattern "--123" = false ∧
    telegram_config_build "12345:secret" "--123" true =
      .ok { bot_token := "12345:secret", chat_id := "--123",
            markdown := true } := by
  exact ⟨by decide, by decide⟩

/-- C9 (amended): Telegram construction succeeds exactly when the bot token
matches the numeric-id-colon-secret pattern and the chat id, after removing
every leading minus sign, is a numeric string; Discord construction succeeds
exactly when the bot token matches the three-dot-separated-segments pattern
and the decimal rendering of the chat id is 18-19 digits; and a constructed
config undergoes no further credential-format check at send time (the send
request is assembled from the raw fields of every config alike). -/
theorem notification_config_validation :
    (∀ (bt ci : String) (md : Bool),
      buildOk (telegram_config_build bt ci md) = true ↔
        (telegram_validate_bot_token bt = true ∧
         pyIsNumericAscii (pyLstripDash ci) = true)) ∧
    (∀ (bt : String) (ci : Int) (ct : DiscordChatType) (md : Bool),
      buildOk (discord_config_build bt ci ct md) = true ↔
        (discord_validate_bot_token bt = true ∧
         discord_validate_chat_id ci = true)) ∧
    (∀ (cfg : TelegramConfig) (msg : String),
      telegram_send_request cfg msg =
        { url := "https://api.telegram.org/bot" ++ cfg.bot_token ++
            "/sendMessage",
          chat_id := cfg.chat_id, text := msg, parse_mode := "Markdown" }) := by
  refine ⟨?_, ?_, fun cfg msg => rfl⟩
  · intro bt ci md
    cases h1 : telegram_validate_bot_token bt <;>
      cases h2 : telegram_validate_chat_id ci <;>
        simp [telegram_config_build, buildOk, h1, h2,
          telegram_validate_chat_id] at h2 ⊢ <;>
          simp [h2]
  · intro bt ci ct md
    cases h1 : discord_validate_bot_token bt <;>
      cases h2 : discord_validate_chat_id ci <;>
        simp [discord_config_build, buildOk, h1, h2]

